import Mathlib

/-!
Verification of the Local Voting State Manager of the community-voice page
(src/app.js; src/unnamed/part_000 is an earlier variant whose `setupVoting`,
`renderResults`, `updatePickSummary` and `safeParse` agree with app.js in every
respect modelled here). JS objects used as string-keyed maps are embedded as
association lists; `localStorage` is embedded as a record with one field per
key region the program uses, where `Option` marks presence or absence of the
key. Wall-clock timestamps (`new Date().toISOString()`) are threaded through
the operations as an explicit `now : String` argument.
-/

namespace CommunityVoice

/-! ## Association lists embedding JS objects -/

/-- Reading `obj[key]` from a JS object: first binding for the key, if any. -/
def lookupA {α : Type} : List (String × α) → String → Option α
  | [], _ => none
  | (k, v) :: t, key => if k = key then some v else lookupA t key

/-- Writing `obj[key] = v` on a JS object: replace the binding for the key, or
append a fresh binding at the end (JS property insertion order). -/
def insertA {α : Type} : List (String × α) → String → α → List (String × α)
  | [], key, v => [(key, v)]
  | (k, w) :: t, key, v => if k = key then (k, v) :: t else (k, w) :: insertA t key v

theorem lookupA_insertA_self {α : Type} (m : List (String × α)) (k : String) (v : α) :
    lookupA (insertA m k v) k = some v := by
  induction m with
  | nil => simp [insertA, lookupA]
  | cons p t ih =>
    obtain ⟨a, b⟩ := p
    by_cases h : a = k
    · simp [insertA, lookupA, h]
    · simp [insertA, lookupA, h, ih]

theorem lookupA_insertA_ne {α : Type} (m : List (String × α)) (k k' : String) (v : α)
    (h : k ≠ k') : lookupA (insertA m k v) k' = lookupA m k' := by
  induction m with
  | nil => simp [insertA, lookupA, h]
  | cons p t ih =>
    obtain ⟨a, b⟩ := p
    by_cases ha : a = k
    · subst ha
      simp [insertA, lookupA, h]
    · simp [insertA, ha, lookupA, ih]

theorem insertA_insertA_same {α : Type} (m : List (String × α)) (k : String) (v w : α) :
    insertA (insertA m k v) k w = insertA m k w := by
  induction m with
  | nil => simp [insertA]
  | cons p t ih =>
    obtain ⟨a, b⟩ := p
    by_cases h : a = k
    · simp [insertA, h]
    · simp [insertA, h, ih]

/-- Sum of the values of a counts object (`Object.values` summed). -/
def sumCounts (m : List (String × Nat)) : Nat :=
  (m.map Prod.snd).sum

/-- Incrementing one entry of a counts object — the effect of
`poll.options[chosen] = (poll.options[chosen] || 0) + 1` — raises the sum of
the values by exactly 1. -/
theorem sumCounts_insertA_incr (m : List (String × Nat)) (k : String) :
    sumCounts (insertA m k ((lookupA m k).getD 0 + 1)) = sumCounts m + 1 := by
  induction m with
  | nil => simp [insertA, lookupA, sumCounts]
  | cons p t ih =>
    obtain ⟨a, b⟩ := p
    by_cases h : a = k
    · subst h
      simp [insertA, lookupA, sumCounts]
      omega
    · simp [insertA, lookupA, h, sumCounts] at ih ⊢
      omega

/-! ## Data model -/

/-- One poll record of the aggregate `votenoir:votes` map:
`{ total, options }` (src/app.js line 79). -/
structure Poll where
  total : Nat
  options : List (String × Nat)
  deriving Repr, DecidableEq

/-- The empty poll record `{ total: 0, options: {} }` used when a poll id is
absent from the aggregate map. -/
def Poll.empty : Poll := ⟨0, []⟩

/-- One entry of `programVotes` in the consolidated document
(src/app.js lines 592-596): `{ title, vote, timestamp }`. -/
structure ProgVote where
  title : String
  vote : String
  timestamp : String
  deriving Repr, DecidableEq

/-- One entry of `pollVotes` in the consolidated document
(src/app.js lines 602-606): `{ title, selectedOption, timestamp }`. -/
structure PollVoteRec where
  title : String
  selectedOption : String
  timestamp : String
  deriving Repr, DecidableEq

/-- The `summary` block of the consolidated document (src/app.js lines 580-585). -/
structure Summary where
  totalVotes : Nat
  programsSupported : Nat
  programsOpposed : Nat
  pollsCompleted : Nat
  deriving Repr, DecidableEq

/-- The consolidated export document stored under `communityVotingData`
(src/app.js lines 560-571). -/
structure VotingData where
  timestamp : String
  voterProfile : List (String × String)
  programVotes : List (String × ProgVote)
  pollVotes : List (String × PollVoteRec)
  summary : Summary
  deriving Repr, DecidableEq

/-- The regions of `localStorage` the voting manager uses. `none` means the
key is absent from storage; `some` holds the parsed stored value.
`userVotes` gathers the per-poll keys `votenoir:poll:<pollId>` (membership in
the list is presence of the key). -/
structure Store where
  votesKey : Option (List (String × Poll))
  userVotes : List (String × String)
  pickSelections : Option (List (String × String))
  votingData : Option VotingData
  deriving Repr, DecidableEq

/-- The empty storage: no key has ever been written. -/
def initStore : Store := ⟨none, [], none, none⟩

/-! ## Operations of the state manager -/

/-- JS truthiness of `getUserVote(pollId)` as used in the guard
`if (getUserVote(pollId)) return;` (src/app.js line 150): the stored value is
`null` when the key is absent, and a string is truthy exactly when nonempty. -/
def truthy : Option String → Bool
  | none => false
  | some s => !(s == "")

/-- The aggregate poll map: `storage.get(VOTES_KEY, {})` (src/app.js line 76) —
the stored map, or the empty object when the key is absent. -/
def pollMap (s : Store) : List (String × Poll) :=
  s.votesKey.getD []

/-- `getPollCounts(pollId)` (src/app.js lines 78-81):
`votes[pollId] || { total: 0, options: {} }`. -/
def getPollCounts (s : Store) (pollId : String) : Poll :=
  (lookupA (pollMap s) pollId).getD Poll.empty

/-- `getUserVote(pollId)` (src/app.js lines 88-90): the string recorded under
the per-poll key `votenoir:poll:<pollId>`, or `null` when absent. -/
def getUserVote (s : Store) (pollId : String) : Option String :=
  lookupA s.userVotes pollId

/-- The summary block recomputed by `saveVotingData` (src/app.js lines 580-585)
from the `programVotes` and `pollVotes` maps of the document. -/
def computeSummary (pv : List (String × ProgVote)) (qv : List (String × PollVoteRec)) :
    Summary :=
  { totalVotes := pv.length + qv.length
    programsSupported := (pv.filter (fun p => p.2.vote == "yes")).length
    programsOpposed := (pv.filter (fun p => p.2.vote == "no")).length
    pollsCompleted := qv.length }

/-- The `defaultData` literal of `getVotingData` (src/app.js lines 560-571). -/
def defaultVotingData (now : String) : VotingData :=
  { timestamp := now
    voterProfile := []
    programVotes := []
    pollVotes := []
    summary := ⟨0, 0, 0, 0⟩ }

/-- `getVotingData()` (src/app.js lines 559-575): the stored consolidated
document, or the default when the key is absent or unparsable. -/
def getVotingData (s : Store) (now : String) : VotingData :=
  s.votingData.getD (defaultVotingData now)

/-- `saveVotingData(data)` (src/app.js lines 577-588): refresh the timestamp,
recompute the summary from the document itself, and persist. This returns the
document as persisted. -/
def saveVotingData (d : VotingData) (now : String) : VotingData :=
  { d with timestamp := now, summary := computeSummary d.programVotes d.pollVotes }

/-- `addPollVote(pollId, pollTitle, selectedOption)` (src/app.js lines 600-608),
returning the document as persisted under `communityVotingData`. -/
def addPollVoteDoc (s : Store) (pollId title opt now : String) : VotingData :=
  let data := getVotingData s now
  saveVotingData
    { data with pollVotes := insertA data.pollVotes pollId ⟨title, opt, now⟩ } now

/-- `addProgramVote(programId, programTitle, vote)` (src/app.js lines 590-598),
returning the document as persisted under `communityVotingData`. -/
def addProgramVoteDoc (s : Store) (programId title vote now : String) : VotingData :=
  let data := getVotingData s now
  saveVotingData
    { data with programVotes := insertA data.programVotes programId ⟨title, vote, now⟩ } now

/-- The `.option` click handler of `setupVoting` (src/app.js lines 148-170),
projected to its effect on storage. If the per-poll user-vote key holds a
truthy value the handler returns at once; otherwise it increments the poll
total and the chosen option count, persists the aggregate map, records the
user choice, and rewrites the consolidated document via `addPollVote`. -/
def castPollVote (s : Store) (pollId opt title now : String) : Store :=
  if truthy (getUserVote s pollId) then s
  else
    let p := getPollCounts s pollId
    let p2 : Poll :=
      { total := p.total + 1
        options := insertA p.options opt ((lookupA p.options opt).getD 0 + 1) }
    { votesKey := some (insertA (pollMap s) pollId p2)
      userVotes := insertA s.userVotes pollId opt
      pickSelections := s.pickSelections
      votingData := some (addPollVoteDoc s pollId title opt now) }

/-- The `.tile-action` click handler of `initPickGrid` (src/app.js
lines 207-227), projected to its effect on storage: `saved[id] = pick` is
persisted unconditionally under `pickSelections`, and the consolidated
document is rewritten via `addProgramVote`. -/
def setPick (s : Store) (itemId title pick now : String) : Store :=
  let saved := s.pickSelections.getD []
  { votesKey := s.votesKey
    userVotes := s.userVotes
    pickSelections := some (insertA saved itemId pick)
    votingData := some (addProgramVoteDoc s itemId title pick now) }

/-- JS object spread `{ ...old, ...upd }` on string-valued records: every
binding of `upd` overwrites or extends `old`, in order. -/
def objAssign (old upd : List (String × String)) : List (String × String) :=
  upd.foldl (fun acc p => insertA acc p.1 p.2) old

/-- `updateVoterProfile(profile)` (src/app.js lines 610-618): merge the given
fields into the stored profile, stamp `lastUpdated`, and persist through
`saveVotingData`. -/
def updateVoterProfile (s : Store) (profile : List (String × String)) (now : String) :
    Store :=
  let data := getVotingData s now
  let merged := insertA (objAssign data.voterProfile profile) "lastUpdated" now
  { s with votingData := some (saveVotingData { data with voterProfile := merged } now) }

/-- What the export button click hands to the user. -/
inductive ExportOutcome
  | noData
  | exported (doc : VotingData)
  deriving Repr, DecidableEq

/-- `exportVotingData()` (src/app.js lines 620-636): reads the consolidated
document, serializes it (`JSON.stringify(data, null, 2)`, modelled as handing
over the document itself), triggers the download, and leaves storage as it
was. -/
def exportVotingDataS (s : Store) (now : String) : VotingData × Store :=
  (getVotingData s now, s)

/-- The export button handler of `setupExportButton` (src/app.js
lines 642-656): when the stored summary records zero total votes it alerts
and returns without producing a file; otherwise it runs `exportVotingData`. -/
def exportClick (s : Store) (now : String) : Store × ExportOutcome :=
  let data := getVotingData s now
  if data.summary.totalVotes == 0 then (s, ExportOutcome.noData)
  else (s, ExportOutcome.exported (exportVotingDataS s now).1)

/-- Removing from the per-poll user-vote keys those whose poll id has a card
on the page (`localStorage.removeItem` per card, src/app.js line 435). -/
def removeKeys (m : List (String × String)) (ids : List String) :
    List (String × String) :=
  m.filter (fun p => !(ids.contains p.1))

/-- `resetAllVotes()` (src/app.js lines 427-470), projected to storage:
the aggregate map is SET to the empty object (`storage.set(VOTES_KEY, {})`),
the per-poll key of every poll card on the page is removed, and the
`pickSelections` and `communityVotingData` keys are removed. `cardIds` is the
list of `data-poll-id` values of the cards present in the page. -/
def resetStore (s : Store) (cardIds : List String) : Store :=
  { votesKey := some []
    userVotes := removeKeys s.userVotes cardIds
    pickSelections := none
    votingData := none }

/-! ## Result rendering -/

/-- `Math.round` on a nonnegative finite number: round half away from zero,
which on the values arising here is the floor of the value plus one half. -/
def jsRound (q : ℚ) : ℤ := ⌊q + 1 / 2⌋

/-- The percentage computed by `renderResults` (src/app.js lines 96-109) for
one option row: `Math.round((count / total) * 100)` with
`total = Math.max(1, poll.total)` and `count = poll.options[option] || 0`. -/
def renderPct (count total : Nat) : ℤ :=
  jsRound (((count : ℚ) / ((max 1 total : ℕ) : ℚ)) * 100)

/-- Stated from the specification text, for comparison with `renderPct`:
each option's percentage is `round(count / max(1, total) * 100)`. -/
def specPct (count total : Nat) : ℤ :=
  round ((count : ℚ) / max 1 (total : ℚ) * 100)

/-- Invariant claimed of every poll record: `total` equals the sum of the
option counts. -/
def pollInv (p : Poll) : Prop := p.total = sumCounts p.options

/-! ## UI surfaces touched by reset -/

/-- The UI state of one poll card that `resetAllVotes` and the initial render
touch: whether the option buttons are disabled, which options carry the
`selected` class, the width/value text of each result bar, whether the
results block is hidden, and the note text. -/
structure CardUI where
  optionsDisabled : Bool
  selected : List String
  fills : List (String × String)
  resultsHidden : Bool
  note : String
  deriving Repr, DecidableEq

/-- The effect of `resetAllVotes` on one poll card (src/app.js lines 438-455):
enable the options, drop the `selected` class, set every bar fill and value
to `0%`, hide the results block, clear the note. -/
def resetCardUI (c : CardUI) : CardUI :=
  { optionsDisabled := false
    selected := []
    fills := c.fills.map (fun p => (p.1, "0%"))
    resultsHidden := true
    note := "" }

/-- Modelled from the spec: the initial no-selection rendering of a poll card.
The authored page HTML is not under src/; per the spec a card with no
recorded vote renders with options enabled, nothing selected, every bar at
0%, results hidden and an empty note (the in-src init path for an unvoted
card, src/app.js lines 141-144, hides the results and clears the note and
leaves the rest as authored). -/
def initCardUI (options : List String) : CardUI :=
  { optionsDisabled := false
    selected := []
    fills := options.map (fun o => (o, "0%"))
    resultsHidden := true
    note := "" }

/-- `applyTileState(tile, pick)` (src/app.js lines 259-263), as the resulting
class state of the tile: `selected-yes`, `selected-no`, or neither. -/
def applyTile (pick : Option String) : Option String :=
  if pick = some "yes" then some "yes"
  else if pick = some "no" then some "no"
  else none

/-- Count of `'yes'` values of the pick map (src/app.js line 268). -/
def pickYes (m : List (String × String)) : Nat :=
  (m.filter (fun p => p.2 == "yes")).length

/-- Count of `'no'` values of the pick map (src/app.js line 269). -/
def pickNo (m : List (String × String)) : Nat :=
  (m.filter (fun p => p.2 == "no")).length

/-- The summary element state written by `updatePickSummary` (src/app.js
lines 265-280): the text content, and the disabled flag of the submit
button. -/
structure SummaryUI where
  text : String
  submitDisabled : Bool
  deriving Repr, DecidableEq

/-- `updatePickSummary(el, map)` (src/app.js lines 265-280). The byte sequence
`¬∑` reproduces the separator characters literally present in the
source string. -/
def updatePickSummaryUI (m : List (String × String)) : SummaryUI :=
  let yes := pickYes m
  let no := pickNo m
  let total := m.length
  { text :=
      if total == 0 then "No selections yet. Hover any item and choose + or -."
      else "Picked: " ++ toString yes ++ " Support (+), " ++ toString no ++
        " Oppose (-) ¬∑ Total " ++ toString total
    submitDisabled := total == 0 }

/-! ## Raw storage cells and parse recovery -/

/-- Outcome of `JSON.parse` on a stored string: an exception, the JS value
`null`, or a proper value of the expected shape. -/
inductive ParseResult (α : Type)
  | fail
  | null
  | val (a : α)

/-- A raw storage cell: `none` when `localStorage.getItem` returns `null`
(key absent), otherwise the parse outcome of the stored string. -/
def Cell (α : Type) : Type := Option (ParseResult α)

/-- `storage.get(key, fallback)` (src/app.js lines 15-17):
`try { return JSON.parse(localStorage.getItem(key)) ?? fallback } catch
{ return fallback }`. An absent key yields `null` (JS `JSON.parse(null)`
parses the coerced string `"null"`), a parse exception is caught, and a
parsed `null` is replaced through `??`; all three give the fallback. -/
def storageGet {α : Type} (cell : Cell α) (fallback : α) : α :=
  match cell with
  | none => fallback
  | some ParseResult.fail => fallback
  | some ParseResult.null => fallback
  | some (ParseResult.val a) => a

/-- `safeParse(v)` (src/app.js line 282):
`try { return JSON.parse(v) } catch { return null }`, as the JS value it
returns (`none` standing for JS `null`). -/
def safeParseC {α : Type} (cell : Cell α) : Option α :=
  match cell with
  | some (ParseResult.val a) => some a
  | _ => none

/-! ## Reachable stores -/

/-- One vote-cast attempt: the arguments of the option click handler. -/
structure VoteAct where
  pollId : String
  opt : String
  title : String
  now : String

/-- A sequence of vote-cast attempts run from the empty storage. -/
def runVotes (acts : List VoteAct) : Store :=
  acts.foldl (fun s a => castPollVote s a.pollId a.opt a.title a.now) initStore

/-- Stores reachable from the empty storage through the write operations of
the manager. -/
inductive Reach : Store → Prop
  | init : Reach initStore
  | cast : ∀ s pollId opt title now, Reach s → Reach (castPollVote s pollId opt title now)
  | pick : ∀ s itemId title pk now, Reach s → Reach (setPick s itemId title pk now)
  | profile : ∀ s prof now, Reach s → Reach (updateVoterProfile s prof now)
  | reset : ∀ s cardIds, Reach s → Reach (resetStore s cardIds)

/-- Internal consistency of a stored consolidated document: its summary block
equals the recomputation from its own vote maps. -/
def docConsistent : Option VotingData → Prop
  | none => True
  | some d => d.summary = computeSummary d.programVotes d.pollVotes

/-- A consolidated document was persisted and its summary equals the values
recomputed from the stored vote maps, field by field as `saveVotingData`
computes them. -/
def summaryPersisted : Option VotingData → Prop
  | none => False
  | some d =>
      d.summary.totalVotes = d.programVotes.length + d.pollVotes.length ∧
      d.summary.programsSupported =
        (d.programVotes.filter (fun p => p.2.vote == "yes")).length ∧
      d.summary.programsOpposed =
        (d.programVotes.filter (fun p => p.2.vote == "no")).length ∧
      d.summary.pollsCompleted = d.pollVotes.length

/-- The consolidated document either was never written or records no program
vote and no poll vote (and a zero total); this is what profile-only activity
maintains. -/
def profileOnly (s : Store) : Prop :=
  s.votingData = none ∨
    ∃ d, s.votingData = some d ∧ d.programVotes = [] ∧ d.pollVotes = [] ∧
      d.summary.totalVotes = 0

/-! ## Helper lemmas -/

theorem castPollVote_eq_of_truthy (s : Store) (pollId opt title now : String)
    (h : truthy (getUserVote s pollId) = true) :
    castPollVote s pollId opt title now = s := by
  unfold castPollVote
  simp [h]

theorem getPollCounts_castPollVote_self (s : Store) (pollId opt title now : String)
    (h : truthy (getUserVote s pollId) = false) :
    getPollCounts (castPollVote s pollId opt title now) pollId =
      { total := (getPollCounts s pollId).total + 1
        options := insertA (getPollCounts s pollId).options opt
          ((lookupA (getPollCounts s pollId).options opt).getD 0 + 1) } := by
  unfold castPollVote
  simp only [h, Bool.false_eq_true, if_false]
  simp [getPollCounts, pollMap, lookupA_insertA_self]

theorem getPollCounts_castPollVote_ne (s : Store) (pollId opt title now pid : String)
    (hne : pollId ≠ pid) :
    getPollCounts (castPollVote s pollId opt title now) pid = getPollCounts s pid := by
  unfold castPollVote
  by_cases h : truthy (getUserVote s pollId)
  · simp [h]
  · simp only [h, Bool.false_eq_true, if_false]
    simp [getPollCounts, pollMap, lookupA_insertA_ne _ _ _ _ hne]

theorem castPollVote_pollInv (s : Store) (pollId opt title now : String)
    (h : ∀ pid, pollInv (getPollCounts s pid)) :
    ∀ pid, pollInv (getPollCounts (castPollVote s pollId opt title now) pid) := by
  intro pid
  by_cases hg : truthy (getUserVote s pollId)
  · rw [castPollVote_eq_of_truthy s pollId opt title now hg]
    exact h pid
  · by_cases hpid : pollId = pid
    · subst hpid
      rw [getPollCounts_castPollVote_self s pollId opt title now (by simpa using hg)]
      have hinv := h pollId
      simp only [pollInv] at hinv ⊢
      rw [sumCounts_insertA_incr, ← hinv]
    · rw [getPollCounts_castPollVote_ne s pollId opt title now pid hpid]
      exact h pid

theorem foldl_castPollVote_pollInv (acts : List VoteAct) (s : Store)
    (h : ∀ pid, pollInv (getPollCounts s pid)) :
    ∀ pid, pollInv (getPollCounts
      (acts.foldl (fun s a => castPollVote s a.pollId a.opt a.title a.now) s) pid) := by
  induction acts generalizing s with
  | nil => exact h
  | cons a t ih =>
    exact ih _ (castPollVote_pollInv s a.pollId a.opt a.title a.now h)

theorem initStore_pollInv : ∀ pid, pollInv (getPollCounts initStore pid) := by
  intro pid
  simp [getPollCounts, pollMap, initStore, lookupA, pollInv, Poll.empty, sumCounts]

/-! ## C1 and C2 -/

/-- C1: for every poll id, after any sequence of vote-cast operations starting
from the empty state, the persisted poll record satisfies `total` = sum of
all option counts in `options`; and each accepted vote increments both
`total` and exactly the chosen option count by 1, every other option count
being unchanged. -/
theorem poll_total_invariant :
    (∀ (acts : List VoteAct) (pid : String), pollInv (getPollCounts (runVotes acts) pid)) ∧
    (∀ (s : Store) (pollId opt title now : String),
      truthy (getUserVote s pollId) = false →
      (getPollCounts (castPollVote s pollId opt title now) pollId).total =
        (getPollCounts s pollId).total + 1 ∧
      (lookupA (getPollCounts (castPollVote s pollId opt title now) pollId).options opt).getD 0 =
        (lookupA (getPollCounts s pollId).options opt).getD 0 + 1 ∧
      ∀ o, o ≠ opt →
        (lookupA (getPollCounts (castPollVote s pollId opt title now) pollId).options o).getD 0 =
          (lookupA (getPollCounts s pollId).options o).getD 0) := by
  constructor
  · intro acts pid
    exact foldl_castPollVote_pollInv acts initStore initStore_pollInv pid
  · intro s pollId opt title now hg
    rw [getPollCounts_castPollVote_self s pollId opt title now hg]
    refine ⟨rfl, ?_, ?_⟩
    · simp [lookupA_insertA_self]
    · intro o ho
      simp [lookupA_insertA_ne _ _ _ _ (Ne.symm ho)]

/-- Witness for C1: a concrete accepted vote on the empty store. -/
theorem poll_total_invariant_witness :
    (getPollCounts (castPollVote initStore "p1" "A" "Poll 1" "t0") "p1").total =
      (getPollCounts initStore "p1").total + 1 :=
  (poll_total_invariant.2 initStore "p1" "A" "Poll 1" "t0" rfl).1

/-- C2 as stated is refuted by the empty option label: a click whose
`data-option` is the empty string records a vote (`getUserVote` returns the
stored empty string), yet the guard `if (getUserVote(pollId)) return` treats
the empty string as falsy, so a later vote attempt on the same poll is
accepted: the recorded choice changes and the total rises to 2. -/
theorem revote_noop_counterexample :
    getUserVote (castPollVote initStore "p1" "" "Poll 1" "t1") "p1" = some "" ∧
    (getPollCounts (castPollVote initStore "p1" "" "Poll 1" "t1") "p1").total = 1 ∧
    getUserVote
      (castPollVote (castPollVote initStore "p1" "" "Poll 1" "t1") "p1" "A" "Poll 1" "t2")
      "p1" = some "A" ∧
    (getPollCounts
      (castPollVote (castPollVote initStore "p1" "" "Poll 1" "t1") "p1" "A" "Poll 1" "t2")
      "p1").total = 2 := by
  decide

/-- C2 (amended): once a NONEMPTY user vote is recorded for a poll id, every
later vote attempt on the same poll (with the same or a different option) is
a silent no-op: the entire store — recorded choice, poll total, all option
counts, and the consolidated document — is unchanged, and no error is
reported to the caller (the handler merely returns). -/
theorem revote_noop_amended (s : Store) (pollId v : String)
    (hrec : getUserVote s pollId = some v) (hne : v ≠ "") :
    ∀ opt title now, castPollVote s pollId opt title now = s := by
  intro opt title now
  apply castPollVote_eq_of_truthy
  rw [hrec]
  simp [truthy, hne]

/-- Witness for the amended C2: after voting `A` on poll `p1`, a second
attempt with `B` leaves the store unchanged. -/
theorem revote_noop_amended_witness :
    castPollVote (castPollVote initStore "p1" "A" "Poll 1" "t1") "p1" "B" "Poll 1" "t2" =
      castPollVote initStore "p1" "A" "Poll 1" "t1" :=
  revote_noop_amended (castPollVote initStore "p1" "A" "Poll 1" "t1") "p1" "A"
    (by decide) (by decide) "B" "Poll 1" "t2"

/-! ## C3: rendered percentages -/

theorem lookupA_getD_le_sumCounts (m : List (String × Nat)) (k : String) :
    (lookupA m k).getD 0 ≤ sumCounts m := by
  induction m with
  | nil => simp [lookupA, sumCounts]
  | cons p t ih =>
    obtain ⟨a, b⟩ := p
    by_cases h : a = k
    · simp [lookupA, h, sumCounts]
    · simp only [lookupA, h, if_false, sumCounts, List.map_cons, List.sum_cons]
      simp only [sumCounts] at ih
      omega

/-- C3: `renderPct` computes every option's displayed percentage exactly as
`round(count / max(1, total) * 100)`; the denominator is always positive (so
no division by zero and no NaN arises), and for a poll whose total is 0 (with
the total-equals-sum invariant) every option renders as 0%. -/
theorem render_percentage_formula :
    (∀ count total : Nat, renderPct count total = specPct count total) ∧
    (∀ total : Nat, (0 : ℚ) < ((max 1 total : ℕ) : ℚ)) ∧
    (∀ p : Poll, pollInv p → p.total = 0 →
      ∀ opt, renderPct ((lookupA p.options opt).getD 0) p.total = 0) := by
  refine ⟨?_, ?_, ?_⟩
  · intro count total
    unfold renderPct specPct jsRound
    rw [round_eq]
    norm_num [Nat.cast_max]
  · intro total
    have h : 0 < max 1 total := lt_of_lt_of_le Nat.one_pos (le_max_left 1 total)
    exact_mod_cast h
  · intro p hinv htot opt
    have hsum : sumCounts p.options = 0 := by
      rw [← hinv, htot]
    have hle := lookupA_getD_le_sumCounts p.options opt
    rw [hsum] at hle
    have hc : (lookupA p.options opt).getD 0 = 0 := Nat.le_zero.mp hle
    rw [hc, htot]
    unfold renderPct jsRound
    norm_num

/-- Witness for C3: the empty poll renders any option at 0%. -/
theorem render_percentage_formula_witness :
    renderPct ((lookupA Poll.empty.options "B").getD 0) Poll.empty.total = 0 :=
  render_percentage_formula.2.2 Poll.empty rfl rfl "B"

/-! ## C5: pick overwrites -/

/-- C5: `setPick` unconditionally overwrites the stored label: repeating the
identical call leaves the stored pick map unchanged (idempotence), a later
call with a different label produces the same stored pick map as a single
call with the final label (last-write-wins, so the stored label for the item
is the final one), and the affirmative/negative/total summary counts computed
by `updatePickSummary` agree with those of the single final write. -/
theorem setPick_last_write_wins :
    ∀ (s : Store) (itemId t1 t2 l l1 l2 n1 n2 : String),
      (setPick (setPick s itemId t1 l n1) itemId t2 l n2).pickSelections =
        (setPick s itemId t1 l n1).pickSelections ∧
      (setPick (setPick s itemId t1 l1 n1) itemId t2 l2 n2).pickSelections =
        (setPick s itemId t2 l2 n2).pickSelections ∧
      lookupA (((setPick (setPick s itemId t1 l1 n1) itemId t2 l2 n2).pickSelections).getD [])
        itemId = some l2 ∧
      pickYes (((setPick (setPick s itemId t1 l1 n1) itemId t2 l2 n2).pickSelections).getD []) =
        pickYes (((setPick s itemId t2 l2 n2).pickSelections).getD []) ∧
      pickNo (((setPick (setPick s itemId t1 l1 n1) itemId t2 l2 n2).pickSelections).getD []) =
        pickNo (((setPick s itemId t2 l2 n2).pickSelections).getD []) ∧
      (((setPick (setPick s itemId t1 l1 n1) itemId t2 l2 n2).pickSelections).getD []).length =
        (((setPick s itemId t2 l2 n2).pickSelections).getD []).length := by
  intro s itemId t1 t2 l l1 l2 n1 n2
  refine ⟨?_, ?_, ?_, ?_, ?_, ?_⟩ <;>
    simp [setPick, insertA_insertA_same, lookupA_insertA_self]

/-! ## C6: every write recomputes the consolidated summary -/

/-- C6: every write operation — `castPollVote` via `addPollVote`, `setPick`
via `addProgramVote`, and the profile update via `updateVoterProfile` —
recomputes and persists the consolidated export document, so after every
committed write the stored summary equals the values recomputed from the
stored maps: `totalVotes` is the entry count of `programVotes` plus that of
`pollVotes`, `programsSupported` counts program votes equal to `yes`,
`programsOpposed` counts those equal to `no`, and `pollsCompleted` is the
entry count of `pollVotes`. -/
theorem writes_recompute_summary :
    (∀ (s : Store) (pollId opt title now : String),
      truthy (getUserVote s pollId) = false →
      summaryPersisted (castPollVote s pollId opt title now).votingData) ∧
    (∀ (s : Store) (itemId title pk now : String),
      summaryPersisted (setPick s itemId title pk now).votingData) ∧
    (∀ (s : Store) (prof : List (String × String)) (now : String),
      summaryPersisted (updateVoterProfile s prof now).votingData) := by
  refine ⟨?_, ?_, ?_⟩
  · intro s pollId opt title now hg
    unfold castPollVote
    simp only [hg, Bool.false_eq_true, if_false]
    simp [summaryPersisted, addPollVoteDoc, saveVotingData, computeSummary]
  · intro s itemId title pk now
    simp [setPick, summaryPersisted, addProgramVoteDoc, saveVotingData, computeSummary]
  · intro s prof now
    simp [updateVoterProfile, summaryPersisted, saveVotingData, computeSummary]

/-- Witness for C6: a committed poll vote on the empty store persists a
consistent summary. -/
theorem writes_recompute_summary_witness :
    summaryPersisted (castPollVote initStore "p1" "A" "Poll 1" "t0").votingData :=
  writes_recompute_summary.1 initStore "p1" "A" "Poll 1" "t0" rfl

/-! ## C7: export with zero votes -/

theorem exportClick_noData (s : Store) (now : String)
    (h : (getVotingData s now).summary.totalVotes = 0) :
    exportClick s now = (s, ExportOutcome.noData) := by
  unfold exportClick
  simp [h]

/-- C7: if export is requested when the consolidated data records zero total
votes, the handler alerts that there is nothing to export (`noData`), no file
is produced, and the store is returned unchanged. -/
theorem export_zero_votes_blocked :
    ∀ (s : Store) (now : String),
      (getVotingData s now).summary.totalVotes = 0 →
      exportClick s now = (s, ExportOutcome.noData) :=
  fun s now h => exportClick_noData s now h

/-- Witness for C7: the empty store has zero total votes and export is
blocked there. -/
theorem export_zero_votes_blocked_witness :
    exportClick initStore "t0" = (initStore, ExportOutcome.noData) :=
  export_zero_votes_blocked initStore "t0" rfl

/-! ## C8: export reads without mutating -/

theorem reach_docConsistent (s : Store) (h : Reach s) : docConsistent s.votingData := by
  induction h with
  | init => simp [initStore, docConsistent]
  | cast s pollId opt title now hr ih =>
    by_cases hg : truthy (getUserVote s pollId)
    · rw [castPollVote_eq_of_truthy s pollId opt title now hg]
      exact ih
    · unfold castPollVote
      simp only [hg, Bool.false_eq_true, if_false]
      simp [docConsistent, addPollVoteDoc, saveVotingData]
  | pick s itemId title pk now hr ih =>
    simp [setPick, docConsistent, addProgramVoteDoc, saveVotingData]
  | profile s prof now hr ih =>
    simp [updateVoterProfile, docConsistent, saveVotingData]
  | reset s cardIds hr ih =>
    simp [resetStore, docConsistent]

/-- C8: `exportVotingData` hands the caller exactly the current consolidated
document and leaves the store as it was; the export click likewise never
changes the store; and on every reachable store the handed document carries
the summary recomputed from its own poll and pick vote maps (each write
recomputed it, so reading serializes the recomputed summary). -/
theorem export_reads_frame :
    ∀ (s : Store) (now : String),
      (exportVotingDataS s now).2 = s ∧
      (exportVotingDataS s now).1 = getVotingData s now ∧
      (exportClick s now).1 = s ∧
      (Reach s →
        (exportVotingDataS s now).1.summary =
          computeSummary (exportVotingDataS s now).1.programVotes
            (exportVotingDataS s now).1.pollVotes) := by
  intro s now
  refine ⟨rfl, rfl, ?_, ?_⟩
  · by_cases h : (getVotingData s now).summary.totalVotes == 0 <;>
      simp [exportClick, h]
  · intro hr
    have hd := reach_docConsistent s hr
    unfold exportVotingDataS getVotingData
    cases hvd : s.votingData with
    | none => simp [defaultVotingData, computeSummary]
    | some d =>
      rw [hvd] at hd
      simpa [docConsistent] using hd

/-- Witness for C8: export on the (reachable) empty store. -/
theorem export_reads_frame_witness :
    (exportVotingDataS initStore "t0").1.summary =
      computeSummary (exportVotingDataS initStore "t0").1.programVotes
        (exportVotingDataS initStore "t0").1.pollVotes :=
  (export_reads_frame initStore "t0").2.2.2 Reach.init

/-! ## C4: reset -/

/-- C4 as stated is refuted: `resetAllVotes` does not leave every persisted
key absent, because it SETS the aggregate poll map to the empty object
(`storage.set(VOTES_KEY, {})`) instead of removing the key. After casting a
vote and resetting, the aggregate key is still present (holding the empty
map). -/
theorem resetAll_counterexample :
    (resetStore (castPollVote initStore "p1" "A" "Poll 1" "t0") ["p1"]).votesKey = some [] ∧
    ¬ (resetStore (castPollVote initStore "p1" "A" "Poll 1" "t0") ["p1"]).votesKey = none := by
  decide

theorem removeKeys_eq_nil (m : List (String × String)) (ids : List String)
    (h : ∀ p ∈ m, p.1 ∈ ids) : removeKeys m ids = [] := by
  unfold removeKeys
  rw [List.filter_eq_nil_iff]
  intro p hp
  simp [h p hp]

/-- C4 (amended): after `resetAllVotes`, the aggregate poll-map key is
present but holds the empty map, while every per-poll user-choice key of a
poll card on the page, the pick-selections key, and the consolidated export
document key are absent; and every UI surface matches its initial
no-selection rendering — each poll card is reset exactly to the initial
no-selection card rendering, every tile loses its selection classes exactly
as the initial render of an empty pick map gives, and the pick summary is
rewritten with the empty map exactly as the initial render of empty storage
writes it. -/
theorem resetAll_amended :
    ∀ (s : Store) (cardIds : List String) (cards : List CardUI)
      (tiles : List (String × Option String)),
      (∀ p ∈ s.userVotes, p.1 ∈ cardIds) →
      (resetStore s cardIds).votesKey = some [] ∧
      (resetStore s cardIds).userVotes = [] ∧
      (resetStore s cardIds).pickSelections = none ∧
      (resetStore s cardIds).votingData = none ∧
      cards.map resetCardUI = cards.map (fun c => initCardUI (c.fills.map Prod.fst)) ∧
      tiles.map (fun t => (t.1, applyTile none)) =
        tiles.map (fun t => (t.1, applyTile (lookupA (initStore.pickSelections.getD []) t.1))) ∧
      updatePickSummaryUI [] = updatePickSummaryUI (initStore.pickSelections.getD []) := by
  intro s cardIds cards tiles h
  refine ⟨rfl, removeKeys_eq_nil s.userVotes cardIds h, rfl, rfl, ?_, ?_, rfl⟩
  · simp [resetCardUI, initCardUI, List.map_map, Function.comp]
  · simp [applyTile, initStore, lookupA]

/-- Witness for the amended C4: a store holding one recorded vote for the one
poll card on the page. -/
theorem resetAll_amended_witness :
    (resetStore (Store.mk none [("p1", "A")] none none) ["p1"]).userVotes = [] :=
  (resetAll_amended (Store.mk none [("p1", "A")] none none) ["p1"] [] []
    (by decide)).2.1

/-! ## C9: parse failures fall back -/

/-- C9: for every storage key and any stored string whose value fails to
JSON-parse, `storage.get` returns the caller-supplied default, `safeParse`
returns null, callers replace that null by the empty mapping, and no error
escapes (the catch branches make the reads total). -/
theorem parse_failure_fallback :
    (∀ (α : Type) (fb : α), storageGet (some ParseResult.fail : Cell α) fb = fb) ∧
    (∀ (α : Type), safeParseC (some ParseResult.fail : Cell α) = none) ∧
    (safeParseC (some ParseResult.fail : Cell (List (String × String)))).getD [] =
      ([] : List (String × String)) :=
  ⟨fun _ _ => rfl, fun _ => rfl, rfl⟩

/-! ## C10: profile updates are frame-preserving -/

theorem updateVoterProfile_profileOnly (s : Store) (prof : List (String × String))
    (now : String) (h : profileOnly s) :
    profileOnly (updateVoterProfile s prof now) := by
  rcases h with h | ⟨d, hd, hp, hq, ht⟩
  · right
    refine ⟨_, rfl, ?_⟩
    simp [updateVoterProfile, getVotingData, h, defaultVotingData, saveVotingData,
      computeSummary]
  · right
    refine ⟨_, rfl, ?_⟩
    simp [updateVoterProfile, getVotingData, hd, saveVotingData, computeSummary, hp, hq]

theorem foldl_updateVoterProfile_profileOnly
    (ps : List (List (String × String) × String)) (s : Store) (h : profileOnly s) :
    profileOnly (ps.foldl (fun s p => updateVoterProfile s p.1 p.2) s) := by
  induction ps generalizing s with
  | nil => exact h
  | cons p t ih => exact ih _ (updateVoterProfile_profileOnly s p.1 p.2 h)

theorem profileOnly_totalVotes (s : Store) (now : String) (h : profileOnly s) :
    (getVotingData s now).summary.totalVotes = 0 := by
  rcases h with h | ⟨d, hd, hp, hq, ht⟩
  · simp [getVotingData, h, defaultVotingData]
  · simp [getVotingData, hd, ht]

/-- C10: `updateVoterProfile` merges the given fields into the stored voter
profile (stamping `lastUpdated`) and refreshes the document timestamp, but on
every reachable store it leaves `programVotes`, `pollVotes` and all four
summary counts unchanged; and any sequence of profile updates alone starting
from empty storage keeps `summary.totalVotes` at zero, so the export button
remains blocked. -/
theorem profile_update_frame :
    (∀ (s : Store) (prof : List (String × String)) (now now2 : String),
      Reach s →
      (getVotingData (updateVoterProfile s prof now) now2).programVotes =
        (getVotingData s now2).programVotes ∧
      (getVotingData (updateVoterProfile s prof now) now2).pollVotes =
        (getVotingData s now2).pollVotes ∧
      (getVotingData (updateVoterProfile s prof now) now2).summary =
        (getVotingData s now2).summary ∧
      (getVotingData (updateVoterProfile s prof now) now2).timestamp = now ∧
      (getVotingData (updateVoterProfile s prof now) now2).voterProfile =
        insertA (objAssign (getVotingData s now2).voterProfile prof) "lastUpdated" now) ∧
    (∀ (ps : List (List (String × String) × String)) (now : String),
      (getVotingData (ps.foldl (fun s p => updateVoterProfile s p.1 p.2) initStore)
        now).summary.totalVotes = 0 ∧
      exportClick (ps.foldl (fun s p => updateVoterProfile s p.1 p.2) initStore) now =
        (ps.foldl (fun s p => updateVoterProfile s p.1 p.2) initStore,
          ExportOutcome.noData)) := by
  constructor
  · intro s prof now now2 hr
    have hd := reach_docConsistent s hr
    cases hvd : s.votingData with
    | none =>
      simp [updateVoterProfile, getVotingData, hvd, defaultVotingData, saveVotingData,
        computeSummary]
    | some d =>
      rw [hvd] at hd
      simp only [docConsistent] at hd
      simp [updateVoterProfile, getVotingData, hvd, saveVotingData, hd]
  · intro ps now
    have hp : profileOnly (ps.foldl (fun s p => updateVoterProfile s p.1 p.2) initStore) :=
      foldl_updateVoterProfile_profileOnly ps initStore (Or.inl rfl)
    have ht := profileOnly_totalVotes _ now hp
    exact ⟨ht, exportClick_noData _ now ht⟩

/-- Witness for C10: a concrete profile update on the (reachable) empty
store leaves the summary unchanged. -/
theorem profile_update_frame_witness :
    (getVotingData (updateVoterProfile initStore [("neighborhood", "north")] "t1")
      "t2").summary = (getVotingData initStore "t2").summary :=
  (profile_update_frame.1 initStore [("neighborhood", "north")] "t1" "t2"
    Reach.init).2.2.1

end CommunityVoice
